import Mathlib

/-!
Verification of the newsletter2paper backend against its specification.

Each section shallowly embeds one module of the Python source
(src/newsletter2paper/...) as executable Lean definitions: pure code becomes
Lean functions, stateful code becomes explicit state passing, fallible code
returns `Except`/`Option`, and calls into third-party libraries (HTTP client,
XML parser, PIL, the database SDK, WeasyPrint, the storage SDK) are
parameters ("oracles") of the embedding.  Machine integers are `Nat`/`Int`.
The theorems at the end of the file settle the frozen claims about the
program.
-/

deriving instance DecidableEq for Except

/-- Truthiness of a Python `Optional[str]`: `None` and the empty string are
falsy, every other string is truthy. -/
def pyTruthy : Option String → Bool
  | none => false
  | some s => !(s == "")

/-- Python string slicing `s[:n]` (by characters), written as a structural
map over the character list. -/
def py_take (s : String) (n : Nat) : String := String.mk (s.data.take n)

namespace RssService

/-!
Embedding of `RSSService.get_articles`
(src/newsletter2paper/services/rss_service.py, lines 74-209).

An `XmlElem` records exactly what the source reads off an ElementTree
element: its `.text` (which may be `None`), the concatenation of its inner
text via `itertext()` (used for title/author, handles CDATA), and its
`href` attribute (used for Atom links).
-/

structure XmlElem where
  text : Option String := none
  itertext : String := ""
  href : Option String := none
deriving Repr, DecidableEq

/-- Results of the per-item `find` calls performed by `get_articles`
(rss_service.py lines 132-170): each field is the element found by the
corresponding lookup, or `none` when the lookup misses. -/
structure FeedItem where
  title_rss : Option XmlElem := none
  title_atom : Option XmlElem := none
  author_rss : Option XmlElem := none
  author_dc : Option XmlElem := none
  author_atom_name : Option XmlElem := none
  link_rss : Option XmlElem := none
  link_atom_alt : Option XmlElem := none
  pubDate : Option XmlElem := none
  dc_date : Option XmlElem := none
  atom_published : Option XmlElem := none
  atom_updated : Option XmlElem := none
deriving Repr, DecidableEq

/-- Python exceptions that can escape `get_articles`. -/
inductive PyError where
  | attributeError (msg : String)
  | requestException (msg : String)
  | parseError (msg : String)
deriving Repr, DecidableEq

/-- Opaque stdlib date parsers used at rss_service.py lines 175-180:
`parsedate_tz` models `email.utils.parsedate_tz` (returns `none` instead of
a date tuple on failure) and `fromisoformat` models
`datetime.fromisoformat` (`none` models the `ValueError` it raises, which
the source catches). Timestamps are abstract integers. -/
structure DateParsers where
  parsedate_tz : String → Option Int
  fromisoformat : String → Option Int

/-- Article record as constructed at rss_service.py lines 186-196. -/
structure Article where
  id : String
  title : String
  subtitle : Option String := none
  date_published : Int
  author : String
  content_url : String
  publication_id : Option String := none
  storage_url : Option String := none
deriving Repr, DecidableEq

/-- Message of the `AttributeError` raised by `datetime.now(datetime.UTC)`
at rss_service.py lines 182 and 184: `datetime` there is the class
`datetime.datetime` (imported at line 97), and that class has no attribute
`UTC` (only the `datetime` module gained a module-level `UTC` alias in
Python 3.11), so both fallback assignments raise instead of producing
"now". -/
def utcAttributeError : PyError :=
  .attributeError "type object datetime.datetime has no attribute UTC"

/-- Date extraction for one item, rss_service.py lines 162-184.  The chained
`find` fallbacks pick the first present element among `pubDate`, `dc:date`,
Atom `published`, Atom `updated`; if that element exists and has truthy
text the source tries RFC-2822 then ISO-8601 parsing; every fallback branch
(`element missing`, `text falsy`, `both parsers fail`) executes
`datetime.now(datetime.UTC)`, which raises an `AttributeError`. -/
def extract_date (P : DateParsers) (item : FeedItem) : Except PyError Int :=
  let date_elem :=
    match item.pubDate with
    | some e => some e
    | none =>
      match item.dc_date with
      | some e => some e
      | none =>
        match item.atom_published with
        | some e => some e
        | none => item.atom_updated
  match date_elem with
  | some e =>
    if pyTruthy e.text then
      let t := e.text.getD ""
      match P.parsedate_tz t with
      | some d => .ok d
      | none =>
        match P.fromisoformat (t.replace "Z" "+00:00") with
        | some d => .ok d
        | none => .error utcAttributeError
    else .error utcAttributeError
  | none => .error utcAttributeError

/-- Per-item parsing, rss_service.py lines 126-198.  `freshId` is the value
produced by `uuid4()` for this item. -/
def parse_item (P : DateParsers) (freshId : String) (item : FeedItem) :
    Except PyError Article :=
  let title_elem :=
    match item.title_rss with
    | some e => some e
    | none => item.title_atom
  let title :=
    match title_elem with
    | some e => e.itertext.trim
    | none => "Untitled"
  let author_elem :=
    match item.author_rss with
    | some e => some e
    | none =>
      match item.author_dc with
      | some e => some e
      | none => item.author_atom_name
  let author :=
    match author_elem with
    | some e => e.itertext.trim
    | none => "Unknown Author"
  let link_elem :=
    match item.link_rss with
    | some e => some e
    | none => item.link_atom_alt
  let content_url :=
    match link_elem with
    | none => ""
    | some e =>
      if pyTruthy e.text then (e.text.getD "").trim
      else if pyTruthy e.href then (e.href.getD "").trim
      else ""
  match extract_date P item with
  | .error e => .error e
  | .ok date_published =>
    .ok { id := freshId
          title := py_take title 255
          subtitle := none
          date_published := date_published
          author := py_take author 255
          content_url := py_take content_url 512
          publication_id := none
          storage_url := none }

/-- Fetched-and-XML-parsed feed document: the `<item>` elements found under
the channel and the Atom `<entry>` elements (rss_service.py lines 121-124). -/
structure FeedDoc where
  rss_items : List FeedItem := []
  atom_items : List FeedItem := []
deriving Repr, DecidableEq

/-- Item selection, rss_service.py line 124:
`items = rss_items if rss_items else atom_items`. -/
def select_items (doc : FeedDoc) : List FeedItem :=
  if doc.rss_items.isEmpty then doc.atom_items else doc.rss_items

/-- Environment of `get_articles`: the date parsers, the composite
fetch-and-parse step (`requests.get` + `raise_for_status` + `ET.fromstring`,
whose `RequestException`/`ParseError` failures the source logs and
re-raises), and the stream of fresh UUIDs (`uuid4()` for the n-th item). -/
structure RssEnv where
  parsers : DateParsers
  fetch : String → Except PyError FeedDoc
  uuid4 : Nat → String

/-- Parses the selected items in order, numbering them for UUID assignment;
an item whose parsing raises propagates the exception (the source's
`except` clause at line 207 catches only `RequestException` and
`ET.ParseError`, and re-raises those too). -/
def parse_items (env : RssEnv) : Nat → List FeedItem → Except PyError (List Article)
  | _, [] => .ok []
  | n, it :: rest =>
    match parse_item env.parsers (env.uuid4 n) it with
    | .error e => .error e
    | .ok a =>
      match parse_items env (n + 1) rest with
      | .error e => .error e
      | .ok tail => .ok (a :: tail)

/-- Embedding of `get_articles` (rss_service.py lines 74-209) restricted to
non-negative `skip` and `limit` (the values the claims quantify over, and
the only values the API layer passes: the router validates `skip ≥ 0` and
`1 ≤ limit ≤ 20`): the Python slice `articles[skip : skip + limit]` is then
`(articles.drop skip).take limit`.  Returns the paginated slice together
with the pre-pagination count. -/
def get_articles (env : RssEnv) (feed_url : String) (skip : Nat := 0)
    (limit : Nat := 10) : Except PyError (List Article × Nat) :=
  match env.fetch feed_url with
  | .error e => .error e
  | .ok doc =>
    match parse_items env 0 (select_items doc) with
    | .error e => .error e
    | .ok articles => .ok ((articles.drop skip).take limit, articles.length)

end RssService

namespace RssDiscovery

/-!
Enhanced-generation feed discovery.  The repository's test suite
(src/newsletter2paper/tests/test_rss_service_enhanced.py) exercises
`RSSService._is_feed_content_type`, `RSSService._guess_common_feed_paths`
(eight candidate paths) and a HEAD-first `get_feed_url`, but the enhanced
`rss_service.py` generation that defines them is not among the source files
present; only the earlier five-path generation is.  The definitions below
are therefore modelled from the specification (spec.md §4.4, feed
discovery) for that missing module.
-/

/-- Boolean substring test over character lists (`needle in haystack`). -/
def containsSubstrL (needle : List Char) : List Char → Bool
  | [] => needle.isEmpty
  | c :: rest => needle.isPrefixOf (c :: rest) || containsSubstrL needle rest

/-- Boolean substring test (Python `needle in haystack`). -/
def containsSubstr (haystack needle : String) : Bool :=
  containsSubstrL needle.data haystack.data

/-- Prefix test on strings (Python `str.startswith`). -/
def str_startsWith (s pre : String) : Bool := pre.data.isPrefixOf s.data

/-- Modelled from the spec: `_is_feed_content_type` of the missing enhanced
RSS service.  Matches substrings "rss", "atom" or generic "xml";
empty/absent content types do not match. -/
def is_feed_content_type : Option String → Bool
  | none => false
  | some ct =>
    containsSubstr ct "rss" || containsSubstr ct "atom" || containsSubstr ct "xml"

/-- Modelled from the spec: scheme normalization (step 1 of discovery) —
prepend "https://" when no scheme is present. -/
def scheme_normalize (url : String) : String :=
  if str_startsWith url "http://" || str_startsWith url "https://" then url
  else "https://" ++ url

/-- Characters of the authority part: everything up to the first slash. -/
def upToSlash : List Char → List Char
  | [] => []
  | c :: rest => if c == '/' then [] else c :: upToSlash rest

/-- Splits a character list at the first occurrence of "://", returning the
scheme characters and the remainder. -/
def split_scheme : List Char → Option (List Char × List Char)
  | [] => none
  | c :: rest =>
    if [':', '/', '/'].isPrefixOf (c :: rest) then some ([], rest.drop 2)
    else
      match split_scheme rest with
      | some (sch, tail) => some (c :: sch, tail)
      | none => none

/-- Modelled from the spec: the site root (scheme plus authority) of a URL,
against which the fixed candidate paths are resolved. -/
def site_root (url : String) : String :=
  match split_scheme url.data with
  | some (sch, rest) => String.mk (sch ++ (':' :: '/' :: '/' :: upToSlash rest))
  | none => url

/-- Modelled from the spec: the eight fixed candidate paths probed in order
when no feed link is found in the page head. -/
def common_feed_paths : List String :=
  ["/feed", "/rss", "/rss.xml", "/atom.xml", "/feeds/posts/default",
   "/feeds", "/feed.xml", "/index.xml"]

/-- Modelled from the spec: `_guess_common_feed_paths` — the candidate URLs,
each candidate path appended to the site root, preserving order. -/
def guess_common_feed_paths (root : String) : List String :=
  common_feed_paths.map (fun p => root ++ p)

/-- Modelled from the spec: a `<link>` element of the fetched page head. -/
structure FeedLink where
  rel_attr : Option String := none
  type_attr : Option String := none
  href : String := ""
deriving Repr, DecidableEq

/-- Modelled from the spec: whether a head `<link>` element advertises a
feed — its `type` is one of the three feed MIME types (optionally combined
with `rel="alternate"`, which the spec treats as an alternative form of the
same match, so the type test alone decides). -/
def link_matches (l : FeedLink) : Bool :=
  l.type_attr == some "application/rss+xml"
    || l.type_attr == some "application/atom+xml"
    || l.type_attr == some "application/feed+json"

/-- Modelled from the spec: resolution of a possibly relative `href`
against the page URL. -/
def resolve_href (base href : String) : String :=
  if containsSubstr href "://" then href
  else if str_startsWith href "/" then site_root base ++ href
  else base ++ "/" ++ href

/-- Network oracle for discovery: content type reported by the lightweight
HEAD existence check, the `<link>` elements of the fetched page head, and
the content type of the GET probe of a candidate URL (`none` models a
failed request or an absent header, which the discovery loop skips). -/
structure DiscoveryEnv where
  head_content_type : String → Option String
  page_links : String → List FeedLink
  probe_content_type : String → Option String

/-- Modelled from the spec: `get_feed_url` of the missing enhanced RSS
service (spec.md §4.4 steps 1-5): normalize the scheme; return the URL
itself when the HEAD check reports a feed content type; otherwise return
the first matching head `<link>` resolved against the page URL; otherwise
probe the eight fixed candidate paths in order and return the first whose
response content type is feed-like; otherwise return `none` without
raising. -/
def get_feed_url (env : DiscoveryEnv) (webpage_url : String) : Option String :=
  let u := scheme_normalize webpage_url
  if is_feed_content_type (env.head_content_type u) then some u
  else
    match (env.page_links u).find? link_matches with
    | some l => some (resolve_href u l.href)
    | none =>
      (guess_common_feed_paths (site_root u)).find?
        (fun c => is_feed_content_type (env.probe_content_type c))

end RssDiscovery

namespace Routers

/-!
Embedding of the HTTP handlers of src/newsletter2paper/routers/rss.py
(`get_rss_feed_url`, lines 9-27) and
src/newsletter2paper/routers/publications.py (`get_publication`,
lines 85-108).  A raised FastAPI `HTTPException` is delivered to the client
as a response with its status code; any other exception escaping a handler
is delivered as a 500.
-/

/-- Python exception as observed by an `except Exception` clause: either a
FastAPI `HTTPException` carrying a status and detail, or any other
exception carrying its message.  `strOfExc` is Python's `str(e)` —
starlette renders an `HTTPException` as "status: detail". -/
inductive PyExc where
  | http (status : Nat) (detail : String)
  | other (msg : String)
deriving Repr, DecidableEq

def strOfExc : PyExc → String
  | .http s d => toString s ++ ": " ++ d
  | .other m => m

/-- Status code of the HTTP response the framework delivers for a handler
outcome: 200 for a returned payload, the carried status for a raised
`HTTPException`, 500 for any other escaped exception. -/
def statusOf {α : Type} : Except PyExc α → Nat
  | .ok _ => 200
  | .error (.http s _) => s
  | .error (.other _) => 500

/-- Handler `GET /rss/url` (rss.py lines 9-27).  `svc` is the outcome of
`rss_service.get_feed_url(webpage_url)`: a discovered URL, `None`, or a
raised exception.  The body raises `HTTPException(404, ...)` when no feed
is found — but that raise happens inside the `try`, and the
`except Exception` clause at line 26 catches it (FastAPI's `HTTPException`
subclasses `Exception`) and re-raises `HTTPException(500, str(e))`. -/
def get_rss_feed_url (svc : Except PyExc (Option String)) :
    Except PyExc String :=
  let body : Except PyExc String :=
    match svc with
    | .error e => .error e
    | .ok none => .error (.http 404 "No RSS feed found for the given URL")
    | .ok (some u) => .ok u
  match body with
  | .ok v => .ok v
  | .error e => .error (.http 500 (strOfExc e))

/-- Handler `GET /publications/{id}` (publications.py lines 85-108).  `db`
is the outcome of the publications-table query filtered on the id: the list
of matching rows (`α` stands for a row) or a raised exception.  As in the
RSS handler, the `HTTPException(404, "Publication not found")` raised when
no row matches is caught by the `except Exception` clause at line 107 and
converted into a 500. -/
def get_publication {α : Type} (db : Except PyExc (List α)) :
    Except PyExc α :=
  let body : Except PyExc α :=
    match db with
    | .error e => .error e
    | .ok [] => .error (.http 404 "Publication not found")
    | .ok (row :: _) => .ok row
  match body with
  | .ok v => .ok v
  | .error e => .error (.http 500 ("Failed to get publication: " ++ strOfExc e))

end Routers

namespace IssuesRouter

/-!
Embedding of `add_publications_to_issue`
(src/newsletter2paper/routers/issues.py, lines 138-202): the request body,
the legacy/structured selection logic (lines 163-173), and the stored
issue-publication link rows.  Timestamps are not part of the link identity
and are omitted from the row model.
-/

/-- Request-body item of the structured form (issues.py lines 26-28). -/
structure PublicationSettings where
  publication_id : String
  remove_images : Bool := false
deriving Repr, DecidableEq

/-- Request body (issues.py lines 30-32): `publication_ids` defaults to the
empty list, `publications` to `None`. -/
structure AddPublicationsRequest where
  publication_ids : List String := []
  publications : Option (List PublicationSettings) := none
deriving Repr, DecidableEq

/-- Truthiness of `request.publications` (an `Optional[List]`): falsy when
`None` or the empty list. -/
def pyTruthyOptList {α : Type} : Option (List α) → Bool
  | none => false
  | some l => !l.isEmpty

/-- Selection logic of issues.py lines 163-173: `if request.publications:`
use the structured list; `elif request.publication_ids:` convert the legacy
list with `remove_images=False`; else nothing. -/
def publications_to_add (r : AddPublicationsRequest) : List PublicationSettings :=
  if pyTruthyOptList r.publications then r.publications.getD []
  else if !r.publication_ids.isEmpty then
    r.publication_ids.map (fun pid => { publication_id := pid, remove_images := false })
  else []

/-- Stored issue-publication link row (issues.py lines 179-185, minus the
timestamp columns). -/
structure IssuePublicationRow where
  issue_id : String
  publication_id : String
  remove_images : Bool
deriving Repr, DecidableEq

/-- Link rows the endpoint stores for the issue after the replace-all
(delete existing rows, then bulk-insert one row per selected publication,
issues.py lines 157-192). -/
def stored_links (issue_id : String) (r : AddPublicationsRequest) :
    List IssuePublicationRow :=
  (publications_to_add r).map (fun p =>
    { issue_id := issue_id
      publication_id := p.publication_id
      remove_images := p.remove_images })

end IssuesRouter

namespace ImageOptimizer

/-!
Embedding of `ImageOptimizer.optimize_image_stream`
(src/newsletter2paper/utils/image_optimizer.py, lines 46-108).  Image bytes
are modelled as `List Nat`; the entire PIL decode/convert/resize/encode
pipeline inside the `try` block is opaque third-party code and is a
parameter: it receives the input bytes and the chosen output format and
either returns the encoded bytes or fails (modelling any exception raised
while decoding, converting, resizing or encoding).
-/

abbrev Bytes := List Nat

/-- Relevant memory settings (config/memory_settings.py):
`ENABLE_IMAGE_COMPRESSION` and `ENABLE_WEBP_CONVERSION`. -/
structure ImgSettings where
  enable_image_compression : Bool := true
  enable_webp_conversion : Bool := true
deriving Repr, DecidableEq

/-- Python `str.lower()` (ASCII case folding, which covers every format
name the source uses), written as a structural map over the characters. -/
def py_lower (s : String) : String := String.mk (s.data.map Char.toLower)

/-- Embedding of `optimize_image_stream` (image_optimizer.py lines 46-108):
if compression is disabled return the input unchanged (line 58); otherwise
run the PIL pipeline with output format WebP when WebP conversion is
enabled else JPEG (line 80) and return the encoded bytes with the
lower-cased output format (line 104); on any pipeline exception return the
original bytes with the lower-cased original format (line 108).  The
function is total: every failure is converted into a returned value. -/
def optimize_image_stream (settings : ImgSettings)
    (pil : Bytes → String → Except String Bytes)
    (image_data : Bytes) (original_format : String) : Bytes × String :=
  if !settings.enable_image_compression then (image_data, original_format)
  else
    let output_format :=
      if settings.enable_webp_conversion then "WebP" else "JPEG"
    match pil image_data output_format with
    | .ok optimized => (optimized, py_lower output_format)
    | .error _ => (image_data, py_lower original_format)

end ImageOptimizer

namespace ImageCache

/-!
Embedding of `MemoryEfficientCache`
(src/newsletter2paper/utils/image_optimizer.py, lines 123-268).

`cache_info` is a Python dict keyed by the MD5 hex digest of the source
URL; we key by the URL itself (MD5 collisions are outside the model).  An
entry is `(key, size, access_time)`.  The dict's insertion order is kept:
overwriting a key keeps its position, inserting appends, `del` removes.
`total_size` is tracked separately from the entries, exactly as in the
source (the two can drift apart: overwriting an existing key adds the new
size without subtracting the old one, lines 224-229).  It is an `Int`
because the Python counter could in principle go negative.  The filesystem
is modelled as always consistent with the bookkeeping: every tracked file
exists and every deletion succeeds (the assumption the claim makes).
-/

/-- One `cache_info` entry: key, size in bytes, access time. -/
abbrev Entry := String × Nat × Nat

/-- `memory_settings.get_max_cache_size_bytes()` = int(100.0*1024*1024). -/
def MAX_CACHE_SIZE : Int := 104857600

/-- Default cleanup target, image_optimizer.py line 155:
int(max_size * CACHE_CLEANUP_THRESHOLD) = int(104857600 * 0.8). -/
def CLEANUP_TARGET : Int := 83886080

/-- `memory_settings.MAX_CACHED_IMAGES`. -/
def MAX_CACHED_IMAGES : Nat := 50

/-- `memory_settings.get_max_image_size_bytes()` = int(2.0*1024*1024). -/
def MAX_IMAGE_SIZE : Nat := 2097152

structure CacheState where
  entries : List Entry := []
  total_size : Int := 0
deriving Repr, DecidableEq

/-- Stable insertion into a list sorted ascending by access time. -/
def insertByAccess (e : Entry) : List Entry → List Entry
  | [] => [e]
  | x :: xs => if e.2.2 ≤ x.2.2 then e :: x :: xs else x :: insertByAccess e xs

/-- Stable sort by access time ascending — `sorted(self.cache_info.items(),
key=lambda x: x[1]['access_time'])` at image_optimizer.py lines 158-161. -/
def sortByAccess : List Entry → List Entry
  | [] => []
  | x :: xs => insertByAccess x (sortByAccess xs)

/-- `del self.cache_info[url_hash]`: removes the (unique) binding of the
key; on a list with unique keys this is removal of the first key match. -/
def eraseKey (k : String) : List Entry → List Entry
  | [] => []
  | e :: rest => if e.1 == k then rest else e :: eraseKey k rest

/-- Eviction loop of `_cleanup_cache` (image_optimizer.py lines 163-179):
while total size exceeds the target or the item count exceeds the cap, and
snapshot items remain, pop the least recently accessed snapshot item,
delete its file (assumed to exist and to be deletable), subtract its size
and drop its bookkeeping entry. -/
def cleanup_go (target : Int) : List Entry → CacheState → CacheState
  | [], s => s
  | e :: rest, s =>
    if s.total_size > target ∨ s.entries.length > MAX_CACHED_IMAGES then
      cleanup_go target rest
        { entries := eraseKey e.1 s.entries
          total_size := s.total_size - (e.2.1 : Int) }
    else s

/-- `_cleanup_cache(target_size=None)` (image_optimizer.py lines 152-182):
a falsy target (absent or zero) defaults to 80% of the max size; then the
eviction loop runs over the access-time-sorted snapshot of the entries. -/
def cleanup_cache (s : CacheState) (target_size : Option Int := none) : CacheState :=
  let target : Int :=
    match target_size with
    | none => CLEANUP_TARGET
    | some t => if t == 0 then CLEANUP_TARGET else t
  cleanup_go target (sortByAccess s.entries) s

/-- Dict write `self.cache_info[url_hash] = {...}`: overwrite in place when
the key is present, append otherwise. -/
def upsertEntry (k : String) (size t : Nat) : List Entry → List Entry
  | [] => [(k, size, t)]
  | e :: rest =>
    if e.1 == k then (k, size, t) :: rest else e :: upsertEntry k size t rest

/-- `cache_image` (image_optimizer.py lines 202-239): when adding the new
payload would exceed the max cache size, or the item count has reached the
cap, run the default cleanup first; then write the file (assumed to
succeed), record the entry and add the new size to the running total. -/
def cache_image (s : CacheState) (url : String) (size : Nat) (t : Nat) :
    CacheState :=
  let s1 :=
    if s.total_size + (size : Int) > MAX_CACHE_SIZE
        ∨ s.entries.length ≥ MAX_CACHED_IMAGES then
      cleanup_cache s none
    else s
  { entries := upsertEntry url size t s1.entries
    total_size := s1.total_size + (size : Int) }

/-- `get_cached_path` (image_optimizer.py lines 184-200) under the
always-consistent-filesystem assumption: refreshes the access time of the
hit entry; a miss changes nothing. -/
def get_cached_path (s : CacheState) (url : String) (t : Nat) : CacheState :=
  { s with
    entries := s.entries.map (fun e => if e.1 == url then (e.1, e.2.1, t) else e) }

/-- Cache operations: `cache_image(url, data, ext)` with `size = len(data)`
and `t = time.time()`, and `get_cached_path(url)` at time `t`. -/
inductive CacheOp where
  | cache (url : String) (size : Nat) (t : Nat)
  | access (url : String) (t : Nat)
deriving Repr, DecidableEq

def step (s : CacheState) : CacheOp → CacheState
  | .cache u sz t => cache_image s u sz t
  | .access u t => get_cached_path s u t

/-- State reached from the fresh cache after a sequence of operations. -/
def run (ops : List CacheOp) : CacheState := ops.foldl step {}

/-- Well-formed operation: a cached payload is no larger than the
configured max image size (the claim's assumption); accesses are
unrestricted. -/
def opOk : CacheOp → Prop
  | .cache _ sz _ => sz ≤ MAX_IMAGE_SIZE
  | .access _ _ => True

/-- Sum of the sizes recorded in the bookkeeping entries. -/
def sizesSumL (l : List Entry) : Nat := (l.map (fun e => e.2.1)).sum

def sizesSum (s : CacheState) : Int := (sizesSumL s.entries : Int)

/-- Invariant of reachable cache states: the keys are distinct (they are
dict keys), the tracked total dominates the sum of the recorded sizes (the
two drift apart by the leaked size of every overwritten entry), the drift
never exceeds the cache limit, and at most one entry more than the cap is
ever tracked. -/
def WF (s : CacheState) : Prop :=
  (s.entries.map (fun e => e.1)).Nodup
  ∧ sizesSum s ≤ s.total_size
  ∧ s.total_size - sizesSum s ≤ MAX_CACHE_SIZE
  ∧ s.entries.length ≤ MAX_CACHED_IMAGES + 1

end ImageCache

namespace DatabaseService

/-!
Embedding of `DatabaseService.store_article`
(src/newsletter2paper/services/database_service.py, lines 22-97).  The
articles table is a list of rows; `query_articles_table("content_url",
value, single=True)` returns the first matching row; the update call
`.update(article_data).eq('id', existing['id'])` modifies, in every row
whose id matches, exactly the columns present in `article_data` — which
does not contain `id` or `created_at`; the insert call adds a row with a
fresh id and fresh timestamps.
-/

structure ArticleRow where
  id : String
  title : String
  subtitle : Option String
  date_published : String
  author : String
  publication_id : Option String
  content_url : String
  storage_url : Option String
  created_at : String
  updated_at : String
deriving Repr, DecidableEq

/-- Input fields of `store_article` (`date_published.isoformat()` is the
string stored). -/
structure StoreArgs where
  title : String
  subtitle : Option String := none
  date_published : String
  author : String
  publication_id : Option String := none
  content_url : String
  storage_url : Option String := none
  update_if_exists : Bool := true
deriving Repr, DecidableEq

/-- The update payload applied to a row (database_service.py lines 58-67):
every content column plus `updated_at`; `id` and `created_at` are not in
the payload and keep the row's stored values. -/
def apply_update (args : StoreArgs) (now : String) (row : ArticleRow) : ArticleRow :=
  { row with
    title := args.title
    subtitle := args.subtitle
    date_published := args.date_published
    author := args.author
    publication_id := args.publication_id
    content_url := args.content_url
    storage_url := args.storage_url
    updated_at := now }

/-- The inserted row (database_service.py lines 76-87): fresh uuid4 id,
`created_at = updated_at = now`. -/
def inserted_row (args : StoreArgs) (now fresh_id : String) : ArticleRow :=
  { id := fresh_id
    title := args.title
    subtitle := args.subtitle
    date_published := args.date_published
    author := args.author
    publication_id := args.publication_id
    content_url := args.content_url
    storage_url := args.storage_url
    created_at := now
    updated_at := now }

/-- Lookup step, database_service.py line 52: first row whose
`content_url` equals the argument. -/
def find_existing (table : List ArticleRow) (content_url : String) :
    Option ArticleRow :=
  table.find? (fun r => r.content_url == content_url)

/-- `store_article` (database_service.py lines 22-97), returning the new
table contents.  When a row with the same `content_url` exists and
`update_if_exists` is set, rows carrying that row's id are updated in
place; otherwise a fresh row is appended. -/
def store_article (table : List ArticleRow) (args : StoreArgs)
    (now fresh_id : String) : List ArticleRow :=
  match find_existing table args.content_url with
  | some existing =>
    if args.update_if_exists then
      table.map (fun r => if r.id == existing.id then apply_update args now r else r)
    else table ++ [inserted_row args now fresh_id]
  | none => table ++ [inserted_row args now fresh_id]

end DatabaseService

namespace PdfService

/-!
Embedding of `PDFService.generate_pdf_from_issue`
(src/newsletter2paper/services/pdf_service.py, lines 455-582) and of the
pieces of its pipeline the claims mention.  Every call that can fail
(aggregation, HTML cleaning, rendering, image processing, file writes, PDF
rendering, storage upload) is an oracle returning `Except String`; the
error value models the message of the raised exception.
`_fetch_article_content` (lines 584-628) catches every exception
internally and is therefore an `Option`-valued oracle.
-/

/-- One aggregated article dict as produced by
`fetch_recent_articles_for_issue` and consumed by the generation loop
(pdf_service.py lines 508-524): only the fields the loop reads. -/
structure AggArticle where
  title : String := ""
  content_url : Option String := none
  content : Option String := none
deriving Repr, DecidableEq

/-- The aggregation result (`articles_data`): total article count, the
issue record (we keep the `title` field the filename step reads), and the
articles grouped by publication id. -/
structure AggData where
  total_articles : Nat
  issue_title : String
  articles_by_publication : List (String × List AggArticle)
deriving Repr, DecidableEq

/-- Oracles of the generation pipeline. -/
structure GenEnv where
  fetch_recent : String → Nat → Nat → Except String (Option AggData)
  fetch_article_content : String → Option String
  clean_html_content : String → Except String String
  render_newspaper : List AggArticle → Except String String
  render_essay : List AggArticle → Except String String
  download_and_cache_images : String → Except String String
  write_html : String → String → Except String Unit
  weasyprint_available : Bool
  write_pdf : String → Except String Nat
  upload_pdf : Nat → String → Except String String
  now_timestamp : String

/-- Keyword arguments of `generate_pdf_from_issue` with the defaults of
its signature (pdf_service.py lines 456-465). -/
structure GenArgs where
  issue_id : String
  days_back : Nat := 7
  max_articles_per_publication : Nat := 5
  layout_type : String := "newspaper"
  output_filename : Option String := none
  keep_html : Bool := false
  verbose : Bool := false
deriving Repr, DecidableEq

/-- The result dict, initialised at pdf_service.py lines 481-488 with
`success=False` and every payload field unset; `layout_type` is added only
by the success update at line 566. -/
structure GenResult where
  success : Bool := false
  pdf_url : Option String := none
  html_path : Option String := none
  issue_info : Option String := none
  articles_count : Nat := 0
  error : Option String := none
  layout_type : Option String := none
deriving Repr, DecidableEq

/-- The `except Exception` clause at pdf_service.py lines 577-580: stores
the formatted message on the result dict as it stands at the moment of the
exception and falls through to `return result`. -/
def caught (r : GenResult) (e : String) : GenResult :=
  { r with error := some ("PDF generation failed: " ++ e) }

/-- The article-preparation loop (pdf_service.py lines 508-521): keep, in
order, each aggregated article that has a truthy `content_url`, whose
content fetch returns a truthy string and whose cleaning succeeds, storing
the cleaned content; any per-article exception is caught at line 518 and
the article is skipped. -/
def prepare_articles (env : GenEnv) : List AggArticle → List AggArticle
  | [] => []
  | a :: rest =>
    let tail := prepare_articles env rest
    if pyTruthy a.content_url then
      match env.fetch_article_content (a.content_url.getD "") with
      | some c =>
        if c == "" then tail
        else
          match env.clean_html_content c with
          | .ok cleaned => { a with content := some cleaned } :: tail
          | .error _ => tail
      | none => tail
    else tail

/-- `create_combined_html` (pdf_service.py lines 630-656): the newspaper
renderer when `layout_type == 'newspaper'`, the essay renderer otherwise. -/
def create_combined_html (env : GenEnv) (articles : List AggArticle)
    (layout_type : String) : Except String String :=
  if layout_type == "newspaper" then env.render_newspaper articles
  else env.render_essay articles

/-- Output-filename computation (pdf_service.py lines 538-542): keep only
alphanumerics, spaces, hyphens and underscores from the issue title, strip,
replace spaces by underscores, truncate to 20 characters, then append an
underscore and the timestamp. -/
def safe_filename (title timestamp : String) : String :=
  let filtered := String.mk (title.toList.filter
    (fun c => c.isAlphanum || c == ' ' || c == '-' || c == '_'))
  let underscored := py_take (filtered.trim.replace " " "_") 20
  underscored ++ "_" ++ timestamp

/-- Embedding of `generate_pdf_from_issue` (pdf_service.py lines 455-582).
The function is total: the body's `try` block is laid out step by step, and
every step's exception lands in `caught`, which turns it into a returned
result value — nothing propagates to the caller. -/
def generate_pdf_from_issue (env : GenEnv) (args : GenArgs) : GenResult :=
  let result : GenResult := {}
  match env.fetch_recent args.issue_id args.days_back
      args.max_articles_per_publication with
  | .error e => caught result e
  | .ok none =>
    { result with error := some "No articles found for the specified issue and date range" }
  | .ok (some agg) =>
    if agg.total_articles = 0 then
      { result with error := some "No articles found for the specified issue and date range" }
    else
      let articles :=
        prepare_articles env (agg.articles_by_publication.map Prod.snd).flatten
      if articles = [] then
        { result with error := some "No article content could be fetched" }
      else
        match create_combined_html env articles args.layout_type with
        | .error e => caught result e
        | .ok html0 =>
          match env.download_and_cache_images html0 with
          | .error e => caught result e
          | .ok html =>
            let output_filename :=
              match args.output_filename with
              | some f => f
              | none => safe_filename agg.issue_title env.now_timestamp
            let html_path := output_filename ++ ".html"
            match (if args.keep_html then env.write_html html_path html else .ok ()) with
            | .error e => caught result e
            | .ok _ =>
              let result1 :=
                if args.keep_html then { result with html_path := some html_path }
                else result
              if env.weasyprint_available = false then
                { result1 with
                  error := some "WeasyPrint not available. Install with: pip install weasyprint" }
              else
                match env.write_pdf html with
                | .error e => caught result1 e
                | .ok pdf_bytes =>
                  match env.upload_pdf pdf_bytes output_filename with
                  | .error e => caught result1 e
                  | .ok url =>
                    { result1 with
                      success := true
                      pdf_url := some url
                      issue_info := some agg.issue_title
                      articles_count := articles.length
                      layout_type := some args.layout_type }

end PdfService

namespace PdfRouter

/-!
Embedding of the call the `POST /pdf/generate/{issue_id}` handler makes
into the PDF engine (src/newsletter2paper/routers/pdf.py, lines 18-70).
-/

/-- Query parameters accepted by the endpoint (pdf.py lines 19-26),
including `layout_type` with its query default "newspaper". -/
structure RouterQuery where
  issue_id : String
  days_back : Nat := 7
  max_articles_per_publication : Nat := 5
  layout_type : String := "newspaper"
  output_filename : Option String := none
  keep_html : Bool := false
  verbose : Bool := false
deriving Repr, DecidableEq

/-- The keyword arguments as passed at the call site: `none` marks a
keyword the call omits. -/
structure ServiceKwargs where
  issue_id : String
  days_back : Nat
  max_articles_per_publication : Nat
  layout_type : Option String
  output_filename : Option String
  keep_html : Bool
  verbose : Bool
deriving Repr, DecidableEq

/-- The call at pdf.py lines 47-54: it forwards `issue_id`, `days_back`,
`max_articles_per_publication`, `output_filename`, `keep_html` and
`verbose` — and no `layout_type` keyword. -/
def forwarded_kwargs (q : RouterQuery) : ServiceKwargs :=
  { issue_id := q.issue_id
    days_back := q.days_back
    max_articles_per_publication := q.max_articles_per_publication
    layout_type := none
    output_filename := q.output_filename
    keep_html := q.keep_html
    verbose := q.verbose }

/-- Python call semantics: an omitted keyword takes the callee signature's
default — for `layout_type` that default is "newspaper"
(pdf_service.py line 461). -/
def apply_service_defaults (k : ServiceKwargs) : PdfService.GenArgs :=
  { issue_id := k.issue_id
    days_back := k.days_back
    max_articles_per_publication := k.max_articles_per_publication
    layout_type := k.layout_type.getD "newspaper"
    output_filename := k.output_filename
    keep_html := k.keep_html
    verbose := k.verbose }

/-- The generation the endpoint performs for a request. -/
def router_generate (env : PdfService.GenEnv) (q : RouterQuery) :
    PdfService.GenResult :=
  PdfService.generate_pdf_from_issue env (apply_service_defaults (forwarded_kwargs q))

end PdfRouter

/-!
Concrete inputs used by the witness and counterexample theorems below.
-/

namespace RssService

/-- Date parsers on which both parsing attempts fail (RFC-2822 parsing
returns no tuple, ISO parsing raises `ValueError`). -/
def failing_parsers : DateParsers :=
  { parsedate_tz := fun _ => none, fromisoformat := fun _ => none }

/-- An item carrying no date element at all. -/
def item_no_date : FeedItem :=
  { title_rss := some { itertext := "No date here", text := some "No date here" } }

/-- An item whose only date element has text neither parser accepts. -/
def item_bad_date : FeedItem :=
  { pubDate := some { text := some "not-a-date" } }

/-- Environment serving a single-item RSS feed with the failing parsers. -/
def single_item_env (it : FeedItem) : RssEnv :=
  { parsers := failing_parsers
    fetch := fun _ => .ok { rss_items := [it] }
    uuid4 := fun n => toString n }

/-- An item with a parseable date and nothing else. -/
def plain_item : FeedItem := { pubDate := some { text := some "d" } }

/-- Environment serving a two-item feed whose dates parse (the RFC-2822
parser accepts the text "d" as timestamp 0). -/
def two_item_env : RssEnv :=
  { parsers := { parsedate_tz := fun _ => some 0, fromisoformat := fun _ => none }
    fetch := fun _ => .ok { rss_items := [plain_item, plain_item] }
    uuid4 := fun n => toString n }

/-- The document `two_item_env` serves. -/
def two_item_doc : FeedDoc := { rss_items := [plain_item, plain_item] }

/-- The article `plain_item` parses to, given its index. -/
def plain_article (n : Nat) : Article :=
  { id := toString n
    title := "Untitled"
    date_published := 0
    author := "Unknown Author"
    content_url := "" }

end RssService

namespace RssDiscovery

/-- Environment in which the HEAD check sees no content type, the page head
has no links, and every probe answers `text/html`. -/
def nothing_env : DiscoveryEnv :=
  { head_content_type := fun _ => none
    page_links := fun _ => []
    probe_content_type := fun _ => some "text/html" }

end RssDiscovery

namespace IssuesRouter

/-- A request carrying both fields: a non-empty legacy list and an empty
structured list. -/
def both_fields_request : AddPublicationsRequest :=
  { publication_ids := ["A"], publications := some [] }

/-- The same structured list sent alone. -/
def empty_structured_request : AddPublicationsRequest :=
  { publication_ids := [], publications := some [] }

end IssuesRouter

namespace ImageCache

/-- Fifty-one one-byte cache insertions under distinct URLs. -/
def count_ops : List CacheOp :=
  (List.range 51).map (fun i => .cache (toString i) 1 i)

/-- Bookkeeping-drift sequence: fifty 2 MiB payloads cached under one URL
(the 49 overwrites each leak the overwritten entry's tracked size), then 21
successively halved payloads under the same URL (growing the leak to just
under the cache limit while the live entry shrinks to one byte), then one
2 MiB payload under a fresh URL. -/
def drift_ops : List CacheOp :=
  ((List.range 50).map (fun i => CacheOp.cache "u" 2097152 i))
    ++ ((List.range 21).map (fun i => CacheOp.cache "u" (2097152 / 2 ^ (i + 1)) (50 + i)))
    ++ [CacheOp.cache "v" 2097152 71]

end ImageCache

namespace PdfService

/-- Oracles for which aggregation finds nothing (a falsy
`articles_data`). -/
def none_env : GenEnv :=
  { fetch_recent := fun _ _ _ => .ok none
    fetch_article_content := fun _ => none
    clean_html_content := fun s => .ok s
    render_newspaper := fun _ => .ok "newspaper html"
    render_essay := fun _ => .ok "essay html"
    download_and_cache_images := fun s => .ok s
    write_html := fun _ _ => .ok ()
    weasyprint_available := true
    write_pdf := fun _ => .ok 0
    upload_pdf := fun _ _ => .ok "https://bucket/pdf"
    now_timestamp := "2025-01-01_00-00" }

/-- Oracles for which every pipeline step succeeds on one aggregated
article. -/
def ok_env : GenEnv :=
  { fetch_recent := fun _ _ _ => .ok (some
      { total_articles := 1
        issue_title := "T"
        articles_by_publication :=
          [("pub1", [{ title := "a", content_url := some "https://x/a" }])] })
    fetch_article_content := fun _ => some "body"
    clean_html_content := fun s => .ok s
    render_newspaper := fun _ => .ok "newspaper html"
    render_essay := fun _ => .ok "essay html"
    download_and_cache_images := fun s => .ok s
    write_html := fun _ _ => .ok ()
    weasyprint_available := true
    write_pdf := fun _ => .ok 0
    upload_pdf := fun _ _ => .ok "https://bucket/pdf"
    now_timestamp := "2025-01-01_00-00" }

end PdfService

namespace PdfRouter

/-- A request that explicitly asks for the essay layout (and supplies an
output filename). -/
def essay_query : RouterQuery :=
  { issue_id := "issue1", layout_type := "essay", output_filename := some "out" }

end PdfRouter

/-!
Theorems.  Helper lemmas come first, then one theorem per claim (with its
witness or counterexample where required).
-/

/-- Every path of the embedded `generate_pdf_from_issue` returns a result
value: failure paths carry an error message and leave `success` false, and
the single success path records the layout it rendered with. -/
theorem pdf_generate_result_spec (env : PdfService.GenEnv) (args : PdfService.GenArgs) :
    ((PdfService.generate_pdf_from_issue env args).success = false →
      ((PdfService.generate_pdf_from_issue env args).error).isSome = true)
    ∧ ((PdfService.generate_pdf_from_issue env args).success = true →
      (PdfService.generate_pdf_from_issue env args).layout_type = some args.layout_type) := by
  unfold PdfService.generate_pdf_from_issue
  cases hf : env.fetch_recent args.issue_id args.days_back
      args.max_articles_per_publication with
  | error e => simp [PdfService.caught]
  | ok ad =>
    cases ad with
    | none => simp
    | some agg =>
      dsimp only
      by_cases h0 : agg.total_articles = 0
      · simp [h0]
      · rw [if_neg h0]
        by_cases hemp : PdfService.prepare_articles env
            (agg.articles_by_publication.map Prod.snd).flatten = []
        · simp [hemp]
        · rw [if_neg hemp]
          cases hrender : PdfService.create_combined_html env
              (PdfService.prepare_articles env
                (agg.articles_by_publication.map Prod.snd).flatten)
              args.layout_type with
          | error e => simp [hrender, PdfService.caught]
          | ok html0 =>
            simp only [hrender]
            cases himg : env.download_and_cache_images html0 with
            | error e => simp [himg, PdfService.caught]
            | ok html =>
              simp only [himg]
              cases hwrite : (if args.keep_html then
                  env.write_html
                    ((match args.output_filename with
                      | some f => f
                      | none => PdfService.safe_filename agg.issue_title
                          env.now_timestamp) ++ ".html") html
                else Except.ok ()) with
              | error e => simp [hwrite, PdfService.caught]
              | ok u =>
                simp only [hwrite]
                by_cases hwp : env.weasyprint_available = false
                · simp [hwp] <;> split <;> simp
                · rw [if_neg hwp]
                  cases hpdf : env.write_pdf html with
                  | error e => simp [hpdf, PdfService.caught] <;> split <;> simp
                  | ok pdf_bytes =>
                    simp only [hpdf]
                    cases hup : env.upload_pdf pdf_bytes
                        (match args.output_filename with
                          | some f => f
                          | none => PdfService.safe_filename agg.issue_title
                              env.now_timestamp) with
                    | error e => simp [hup, PdfService.caught] <;> split <;> simp
                    | ok url => simp [hup]

/-- Claim C2: the spec says a missed feed discovery on GET /rss/url and a
missed publication lookup on GET /publications/(id) are delivered as
HTTP 404.  In the code both handlers raise `HTTPException(404, ...)` inside
their `try` blocks, and the blanket `except Exception` clauses
(rss.py line 26, publications.py line 107) catch those very exceptions and
re-raise them as 500s, so the client receives 500, not 404, in both cases;
this theorem evaluates both embedded handlers at the miss inputs. -/
theorem routers_deliver_500_on_miss :
    Routers.statusOf (Routers.get_rss_feed_url (.ok none)) = 500
    ∧ Routers.get_rss_feed_url (.ok none) =
        .error (.http 500 "404: No RSS feed found for the given URL")
    ∧ Routers.statusOf (@Routers.get_publication Unit (.ok [])) = 500
    ∧ @Routers.get_publication Unit (.ok []) =
        .error (.http 500 "Failed to get publication: 404: Publication not found") := by
  refine ⟨rfl, rfl, rfl, rfl⟩

/-- Claim C4: the spec says an item with absent or unparseable date fields
parses with `date_published` = now (UTC) and does not raise.  The fallback
lines rss_service.py 182 and 184 execute `datetime.now(datetime.UTC)`
where `datetime` is the class `datetime.datetime`, which has no attribute
`UTC`, so both fallback paths raise `AttributeError` instead; this theorem
evaluates `get_articles` on a one-item feed with no date element and on one
with an unparseable date, showing the error escaping in both cases. -/
theorem get_articles_raises_without_date :
    RssService.get_articles (RssService.single_item_env RssService.item_no_date)
        "https://example.com/feed" 0 10 = .error RssService.utcAttributeError
    ∧ RssService.get_articles (RssService.single_item_env RssService.item_bad_date)
        "https://example.com/feed" 0 10 = .error RssService.utcAttributeError := by
  refine ⟨rfl, rfl⟩

/-- Claim C6, counterexample part: the claim says the structured
`publications` list takes priority whenever both fields are present in one
request.  With `publications` present but empty and a non-empty legacy
`publication_ids`, Python truthiness (`if request.publications:`) sends the
code down the legacy branch, so the stored rows follow the legacy list
instead of the (empty) structured one. -/
theorem issue_publications_empty_structured_loses :
    IssuesRouter.stored_links "I" IssuesRouter.both_fields_request =
      [{ issue_id := "I", publication_id := "A", remove_images := false }]
    ∧ IssuesRouter.stored_links "I" IssuesRouter.both_fields_request ≠
        IssuesRouter.stored_links "I" IssuesRouter.empty_structured_request := by
  refine ⟨rfl, by decide⟩

/-- Claim C6, amended: a legacy flat list stores exactly the same link rows
(each with `remove_images = false`) as the equivalent structured list, and
the structured list takes priority when it is present and non-empty (an
empty structured list is ignored in favour of the legacy list). -/
theorem issue_publications_legacy_equiv
    (issue : String) (ids : List String) (ps : List IssuesRouter.PublicationSettings) :
    IssuesRouter.stored_links issue { publication_ids := ids, publications := none } =
      IssuesRouter.stored_links issue
        { publication_ids := []
          publications := some (ids.map (fun i =>
            { publication_id := i, remove_images := false })) }
    ∧ (ps ≠ [] → ∀ ids2, IssuesRouter.publications_to_add
        { publication_ids := ids2, publications := some ps } = ps) := by
  constructor
  · cases ids with
    | nil => rfl
    | cons a l =>
      simp [IssuesRouter.stored_links, IssuesRouter.publications_to_add,
        IssuesRouter.pyTruthyOptList]
  · intro hps ids2
    simp [IssuesRouter.publications_to_add, IssuesRouter.pyTruthyOptList,
      List.isEmpty_eq_false.mpr hps]

/-- Witness for the amended claim C6 at concrete inputs. -/
theorem issue_publications_legacy_equiv_witness :
    IssuesRouter.stored_links "I" { publication_ids := ["A", "B"], publications := none } =
      IssuesRouter.stored_links "I"
        { publication_ids := []
          publications := some [{ publication_id := "A", remove_images := false },
            { publication_id := "B", remove_images := false }] }
    ∧ IssuesRouter.publications_to_add
        { publication_ids := ["C"]
          publications := some [{ publication_id := "A", remove_images := true }] } =
        [{ publication_id := "A", remove_images := true }] := by
  have h := issue_publications_legacy_equiv "I" ["A", "B"]
    [{ publication_id := "A", remove_images := true }]
  exact ⟨h.1, h.2 (by decide) ["C"]⟩

/-- Claim C8, counterexample part: the claim says a decode/encode failure
returns the original bytes and the original format string unchanged.  The
fallback at image_optimizer.py line 108 returns
`original_format.lower()`, so for `original_format = "JPEG"` the returned
format is "jpeg", not the unchanged "JPEG". -/
theorem optimize_image_stream_lowercases_format :
    ImageOptimizer.optimize_image_stream {}
        (fun _ _ => .error "cannot identify image file") [7] "JPEG" = ([7], "jpeg")
    ∧ ("jpeg" : String) ≠ "JPEG" := by
  refine ⟨rfl, by decide⟩

/-- Claim C8, amended: `optimize_image_stream` is total (every failure is
converted into a returned value — by construction the embedding returns a
pair on every input), and on any decode/encode failure it returns the
original bytes together with the lower-cased original format string;
with compression disabled it returns both inputs fully unchanged. -/
theorem optimize_image_stream_fallback
    (settings : ImageOptimizer.ImgSettings)
    (pil : ImageOptimizer.Bytes → String → Except String ImageOptimizer.Bytes)
    (data : ImageOptimizer.Bytes) (fmt err : String) :
    (settings.enable_image_compression = false →
      ImageOptimizer.optimize_image_stream settings pil data fmt = (data, fmt))
    ∧ (settings.enable_image_compression = true →
        pil data (if settings.enable_webp_conversion then "WebP" else "JPEG") =
          .error err →
        ImageOptimizer.optimize_image_stream settings pil data fmt =
          (data, ImageOptimizer.py_lower fmt)) := by
  constructor
  · intro h
    simp [ImageOptimizer.optimize_image_stream, h]
  · intro h hfail
    simp [ImageOptimizer.optimize_image_stream, h, hfail]

/-- Parsing an item list successfully yields one article per item. -/
theorem rss_parse_items_length (env : RssService.RssEnv) :
    ∀ (items : List RssService.FeedItem) (n : Nat) (arts : List RssService.Article),
      RssService.parse_items env n items = .ok arts → arts.length = items.length := by
  intro items
  induction items with
  | nil =>
    intro n arts h
    unfold RssService.parse_items at h
    injection h with h2
    subst h2
    rfl
  | cons it rest ih =>
    intro n arts h
    unfold RssService.parse_items at h
    cases hp : RssService.parse_item env.parsers (env.uuid4 n) it with
    | error e => rw [hp] at h; cases h
    | ok a =>
      rw [hp] at h
      cases hr : RssService.parse_items env (n + 1) rest with
      | error e => rw [hr] at h; cases h
      | ok tail =>
        rw [hr] at h
        injection h with h2
        subst h2
        simp [ih (n + 1) tail hr]

/-- Claim C5: for a feed whose items all parse, `get_articles` returns the
Python slice `items[skip : skip + limit]` (here `(arts.drop skip).take
limit` for natural `skip`/`limit`) together with `total` equal to the
pre-pagination count of parsed items, and a `skip` past the end yields the
empty list with the same `total`, not an error. -/
theorem get_articles_pagination (env : RssService.RssEnv) (url : String)
    (doc : RssService.FeedDoc) (skip limit : Nat)
    (arts : List RssService.Article)
    (hfetch : env.fetch url = .ok doc)
    (hparse : RssService.parse_items env 0 (RssService.select_items doc) = .ok arts)
    (hlimit : 1 ≤ limit) :
    RssService.get_articles env url skip limit =
      .ok ((arts.drop skip).take limit, arts.length)
    ∧ arts.length = (RssService.select_items doc).length
    ∧ (arts.length ≤ skip → (arts.drop skip).take limit = []) := by
  refine ⟨?_, rss_parse_items_length env _ 0 _ hparse, ?_⟩
  · simp only [RssService.get_articles, hfetch, hparse]
  · intro h
    rw [List.drop_eq_nil_of_le h]
    simp

/-- Witness for claim C5: a two-item feed paginated past the end and from
the start. -/
theorem get_articles_pagination_witness :
    RssService.get_articles RssService.two_item_env "https://example.com/feed" 100 10 =
      .ok ([], 2)
    ∧ RssService.get_articles RssService.two_item_env "https://example.com/feed" 0 5 =
        .ok ([RssService.plain_article 0, RssService.plain_article 1], 2) := by
  have h1 := get_articles_pagination RssService.two_item_env "https://example.com/feed"
    RssService.two_item_doc 100 10
    [RssService.plain_article 0, RssService.plain_article 1] rfl (by decide) (by decide)
  have h2 := get_articles_pagination RssService.two_item_env "https://example.com/feed"
    RssService.two_item_doc 0 5
    [RssService.plain_article 0, RssService.plain_article 1] rfl (by decide) (by decide)
  exact ⟨h1.1.trans (by decide), h2.1.trans (by decide)⟩

/-- Claim C3 (modelled from the spec, see the RssDiscovery section): when
the HEAD check does not classify the URL itself as a feed and the page
head yields no matching feed link, discovery probes exactly the eight
candidate URLs, in the listed order, relative to the site root; it returns
the first probe whose content type is feed-like, and `none` — without any
exception — when no probe matches. -/
theorem feed_discovery_probes_eight_paths (env : RssDiscovery.DiscoveryEnv)
    (url : String)
    (hhead : RssDiscovery.is_feed_content_type
      (env.head_content_type (RssDiscovery.scheme_normalize url)) = false)
    (hlinks : (env.page_links (RssDiscovery.scheme_normalize url)).find?
      RssDiscovery.link_matches = none) :
    RssDiscovery.guess_common_feed_paths
        (RssDiscovery.site_root (RssDiscovery.scheme_normalize url)) =
      [RssDiscovery.site_root (RssDiscovery.scheme_normalize url) ++ "/feed",
       RssDiscovery.site_root (RssDiscovery.scheme_normalize url) ++ "/rss",
       RssDiscovery.site_root (RssDiscovery.scheme_normalize url) ++ "/rss.xml",
       RssDiscovery.site_root (RssDiscovery.scheme_normalize url) ++ "/atom.xml",
       RssDiscovery.site_root (RssDiscovery.scheme_normalize url) ++ "/feeds/posts/default",
       RssDiscovery.site_root (RssDiscovery.scheme_normalize url) ++ "/feeds",
       RssDiscovery.site_root (RssDiscovery.scheme_normalize url) ++ "/feed.xml",
       RssDiscovery.site_root (RssDiscovery.scheme_normalize url) ++ "/index.xml"]
    ∧ RssDiscovery.get_feed_url env url =
        (RssDiscovery.guess_common_feed_paths
          (RssDiscovery.site_root (RssDiscovery.scheme_normalize url))).find?
          (fun c => RssDiscovery.is_feed_content_type (env.probe_content_type c))
    ∧ ((∀ c ∈ RssDiscovery.guess_common_feed_paths
          (RssDiscovery.site_root (RssDiscovery.scheme_normalize url)),
        RssDiscovery.is_feed_content_type (env.probe_content_type c) = false) →
      RssDiscovery.get_feed_url env url = none) := by
  have hmain : RssDiscovery.get_feed_url env url =
      (RssDiscovery.guess_common_feed_paths
        (RssDiscovery.site_root (RssDiscovery.scheme_normalize url))).find?
        (fun c => RssDiscovery.is_feed_content_type (env.probe_content_type c)) := by
    simp only [RssDiscovery.get_feed_url, hhead, hlinks]
    simp
  refine ⟨rfl, hmain, ?_⟩
  intro hall
  rw [hmain]
  rw [List.find?_eq_none]
  intro c hc
  simp [hall c hc]

/-- Witness for claim C3: no head link and only `text/html` probe answers
give `none`. -/
theorem feed_discovery_probes_eight_paths_witness :
    RssDiscovery.get_feed_url RssDiscovery.nothing_env "example.com" = none := by
  have h := feed_discovery_probes_eight_paths RssDiscovery.nothing_env "example.com"
    rfl rfl
  exact h.2.2 (by decide)

/-- Claim C10: when `store_article` finds a row with the same `content_url`
and `update_if_exists` is set, the table is updated in place — the update
payload contains the content columns and `updated_at` only, so every row
keeps its `id` and `created_at`, the matched row gets exactly the new
content fields and `updated_at`, and non-matching rows are untouched; the
fresh id and fresh `created_at` appear only on the insert path. -/
theorem store_article_update_frame (table : List DatabaseService.ArticleRow)
    (args : DatabaseService.StoreArgs) (now fresh_id : String)
    (r : DatabaseService.ArticleRow)
    (hfind : DatabaseService.find_existing table args.content_url = some r)
    (hupd : args.update_if_exists = true) :
    DatabaseService.store_article table args now fresh_id =
      table.map (fun row =>
        if row.id == r.id then DatabaseService.apply_update args now row else row)
    ∧ (∀ row : DatabaseService.ArticleRow,
        (DatabaseService.apply_update args now row).id = row.id
        ∧ (DatabaseService.apply_update args now row).created_at = row.created_at
        ∧ (DatabaseService.apply_update args now row).title = args.title
        ∧ (DatabaseService.apply_update args now row).subtitle = args.subtitle
        ∧ (DatabaseService.apply_update args now row).date_published = args.date_published
        ∧ (DatabaseService.apply_update args now row).author = args.author
        ∧ (DatabaseService.apply_update args now row).publication_id = args.publication_id
        ∧ (DatabaseService.apply_update args now row).content_url = args.content_url
        ∧ (DatabaseService.apply_update args now row).storage_url = args.storage_url
        ∧ (DatabaseService.apply_update args now row).updated_at = now)
    ∧ (DatabaseService.store_article table args now fresh_id).map
        (fun row => (row.id, row.created_at)) =
      table.map (fun row => (row.id, row.created_at)) := by
  have h1 : DatabaseService.store_article table args now fresh_id =
      table.map (fun row =>
        if row.id == r.id then DatabaseService.apply_update args now row else row) := by
    unfold DatabaseService.store_article
    rw [hfind, hupd]
    simp
  refine ⟨h1, fun row => ⟨rfl, rfl, rfl, rfl, rfl, rfl, rfl, rfl, rfl, rfl⟩, ?_⟩
  rw [h1, List.map_map]
  apply List.map_congr_left
  intro row _
  by_cases h : row.id = r.id
  · simp [h, DatabaseService.apply_update]
  · simp [h]

/-- Witness for claim C10: a one-row table updated by content URL keeps its
id and creation timestamp. -/
theorem store_article_update_frame_witness :
    DatabaseService.store_article
      [{ id := "id0", title := "Old", subtitle := none, date_published := "2020",
         author := "A", publication_id := none, content_url := "https://x/a",
         storage_url := none, created_at := "c0", updated_at := "u0" }]
      { title := "New", date_published := "2021", author := "B",
        content_url := "https://x/a" } "now1" "freshid" =
      [{ id := "id0", title := "New", subtitle := none, date_published := "2021",
         author := "B", publication_id := none, content_url := "https://x/a",
         storage_url := none, created_at := "c0", updated_at := "now1" }] := by
  have h := store_article_update_frame
    [{ id := "id0", title := "Old", subtitle := none, date_published := "2020",
       author := "A", publication_id := none, content_url := "https://x/a",
       storage_url := none, created_at := "c0", updated_at := "u0" }]
    { title := "New", date_published := "2021", author := "B",
      content_url := "https://x/a" } "now1" "freshid"
    { id := "id0", title := "Old", subtitle := none, date_published := "2020",
      author := "A", publication_id := none, content_url := "https://x/a",
      storage_url := none, created_at := "c0", updated_at := "u0" }
    (by decide) rfl
  exact h.1.trans (by decide)

/-- Witness for the amended claim C8 at a concrete failing input. -/
theorem optimize_image_stream_fallback_witness :
    ImageOptimizer.optimize_image_stream {}
        (fun _ _ => .error "broken data stream") [1, 2, 3] "PNG" = ([1, 2, 3], "png") := by
  have h := optimize_image_stream_fallback {}
    (fun _ _ => .error "broken data stream") [1, 2, 3] "PNG" "broken data stream"
  exact (h.2 rfl rfl).trans (by decide)

/-- Claim C1: the embedded `generate_pdf_from_issue` is a total function
into result values — an exception in any pipeline step lands in the
`except` clause (pdf_service.py line 577), which stores
"PDF generation failed: (message)" on the result and returns it — so every
failure is a value with `success = false` and an error message, and when
aggregation is falsy or yields zero articles the result is exactly
`success = false` with error
"No articles found for the specified issue and date range". -/
theorem generate_pdf_failure_as_value (env : PdfService.GenEnv)
    (args : PdfService.GenArgs) :
    ((PdfService.generate_pdf_from_issue env args).success = false →
      ((PdfService.generate_pdf_from_issue env args).error).isSome = true)
    ∧ (∀ e, env.fetch_recent args.issue_id args.days_back
          args.max_articles_per_publication = .error e →
        PdfService.generate_pdf_from_issue env args = PdfService.caught {} e)
    ∧ (env.fetch_recent args.issue_id args.days_back
          args.max_articles_per_publication = .ok none →
        PdfService.generate_pdf_from_issue env args =
          { success := false
            error := some "No articles found for the specified issue and date range" })
    ∧ (∀ agg, env.fetch_recent args.issue_id args.days_back
          args.max_articles_per_publication = .ok (some agg) →
        agg.total_articles = 0 →
        PdfService.generate_pdf_from_issue env args =
          { success := false
            error := some "No articles found for the specified issue and date range" }) := by
  refine ⟨(pdf_generate_result_spec env args).1, ?_, ?_, ?_⟩
  · intro e he
    simp [PdfService.generate_pdf_from_issue, he]
  · intro hnone
    simp [PdfService.generate_pdf_from_issue, hnone]
  · intro agg hagg h0
    simp [PdfService.generate_pdf_from_issue, hagg, h0]

/-- Witness for claim C1: with aggregation finding nothing, generation
returns the exact zero-article failure value. -/
theorem generate_pdf_failure_as_value_witness :
    PdfService.generate_pdf_from_issue PdfService.none_env { issue_id := "issue1" } =
      { success := false
        error := some "No articles found for the specified issue and date range" } :=
  (generate_pdf_failure_as_value PdfService.none_env { issue_id := "issue1" }).2.2.1 rfl

/-- Claim C9: the POST /pdf/generate handler accepts a `layout_type` query
parameter but the call into the engine (pdf.py lines 47-54) does not
forward it, so the engine runs with its signature default "newspaper"
whatever the query said: the effective arguments carry
`layout_type = "newspaper"`, `create_combined_html` therefore always takes
the newspaper branch, and a successful result records layout "newspaper". -/
theorem pdf_router_ignores_layout_type (env : PdfService.GenEnv)
    (q : PdfRouter.RouterQuery) :
    (PdfRouter.apply_service_defaults (PdfRouter.forwarded_kwargs q)).layout_type =
      "newspaper"
    ∧ (∀ arts, PdfService.create_combined_html env arts
        (PdfRouter.apply_service_defaults (PdfRouter.forwarded_kwargs q)).layout_type =
        env.render_newspaper arts)
    ∧ ((PdfRouter.router_generate env q).success = true →
      (PdfRouter.router_generate env q).layout_type = some "newspaper") := by
  refine ⟨rfl, fun arts => rfl, ?_⟩
  intro hs
  exact (pdf_generate_result_spec env
    (PdfRouter.apply_service_defaults (PdfRouter.forwarded_kwargs q))).2 hs

/-- Witness for claim C9: a request explicitly asking for the essay layout
still succeeds with the newspaper layout recorded. -/
theorem pdf_router_ignores_layout_type_witness :
    (PdfRouter.router_generate PdfService.ok_env PdfRouter.essay_query).success = true
    ∧ PdfRouter.essay_query.layout_type = "essay"
    ∧ (PdfRouter.router_generate PdfService.ok_env PdfRouter.essay_query).layout_type =
        some "newspaper" := by
  have h := pdf_router_ignores_layout_type PdfService.ok_env PdfRouter.essay_query
  exact ⟨by decide, rfl, h.2.2 (by decide)⟩

set_option maxRecDepth 10000 in
/-- Claim C7, counterexample part: the claimed bounds fail on the code.
Caching 51 distinct one-byte images leaves 51 tracked entries: the
pre-insert cleanup stops at `count ≤ 50` and the insertion itself pushes
the count to 51 > MAX_CACHED_IMAGES.  And because an overwrite of an
existing key adds the new size to `total_size` without subtracting the old
entry's size, repeated overwrites inflate the tracked total; after the
`drift_ops` sequence (all payloads ≤ the 2 MiB max image size, 72
operations) the tracked total reaches 106954750 bytes > MAX_CACHE_SIZE
= 104857600. -/
theorem cache_image_bounds_fail :
    ((ImageCache.run ImageCache.count_ops).entries.length = 51
      ∧ ¬((ImageCache.run ImageCache.count_ops).entries.length ≤
          ImageCache.MAX_CACHED_IMAGES))
    ∧ ((ImageCache.run ImageCache.drift_ops).total_size = 106954750
      ∧ ¬((ImageCache.run ImageCache.drift_ops).total_size ≤
          ImageCache.MAX_CACHE_SIZE)) := by
  refine ⟨⟨?_, by decide⟩, ⟨?_, by decide⟩⟩ <;> decide

/-- Inserting into the access-time-sorted list is a permutation. -/
theorem cache_insertByAccess_perm (e : ImageCache.Entry) (l : List ImageCache.Entry) :
    (ImageCache.insertByAccess e l).Perm (e :: l) := by
  induction l with
  | nil => exact List.Perm.refl _
  | cons x xs ih =>
    unfold ImageCache.insertByAccess
    split
    · exact List.Perm.refl _
    · exact (ih.cons x).trans (List.Perm.swap e x xs)

/-- The access-time sort is a permutation of the entries. -/
theorem cache_sortByAccess_perm (l : List ImageCache.Entry) :
    (ImageCache.sortByAccess l).Perm l := by
  induction l with
  | nil => exact List.Perm.refl _
  | cons x xs ih =>
    exact (cache_insertByAccess_perm x (ImageCache.sortByAccess xs)).trans (ih.cons x)

/-- Erasing a key erases it from the key list. -/
theorem cache_eraseKey_keys (k : String) (l : List ImageCache.Entry) :
    (ImageCache.eraseKey k l).map (fun e => e.1) = (l.map (fun e => e.1)).erase k := by
  induction l with
  | nil => rfl
  | cons e rest ih =>
    unfold ImageCache.eraseKey
    by_cases h : (e.1 == k) = true
    · simp [h, List.erase_cons, eq_of_beq h]
    · have hne : ¬(e.1 = k) := fun hh => h (by simp [hh])
      simp [h, List.erase_cons, hne, ih]

/-- With distinct keys, a member entry is recovered by erasing its key:
the list is a permutation of the entry consed onto the erased list. -/
theorem cache_eraseKey_perm (e : ImageCache.Entry) :
    ∀ (l : List ImageCache.Entry), (l.map (fun x => x.1)).Nodup → e ∈ l →
      l.Perm (e :: ImageCache.eraseKey e.1 l) := by
  intro l
  induction l with
  | nil => intro _ hmem; cases hmem
  | cons x rest ih =>
    intro hnd hmem
    unfold ImageCache.eraseKey
    by_cases hx : (x.1 == e.1) = true
    · have hxe : x = e := by
        cases hmem with
        | head => rfl
        | tail _ hm =>
          exfalso
          have hkey : e.1 ∈ rest.map (fun x => x.1) := List.mem_map_of_mem _ hm
          have hx1 : x.1 = e.1 := eq_of_beq hx
          rw [← hx1] at hkey
          exact (List.nodup_cons.mp hnd).1 hkey
      subst hxe
      simp [hx]
    · have hmem' : e ∈ rest := by
        cases hmem with
        | head => exact absurd (by simp) hx
        | tail _ hm => exact hm
      have hnd' : (rest.map (fun x => x.1)).Nodup := (List.nodup_cons.mp hnd).2
      have hrec := ih hnd' hmem'
      simp only [hx, if_false]
      exact (hrec.cons x).trans (List.Perm.swap e x _)

/-- Size bookkeeping of a single eviction: the sum of recorded sizes of the
original entries equals the evicted entry's size plus the sum after the
key is erased. -/
theorem cache_eraseKey_sum (e : ImageCache.Entry) (l : List ImageCache.Entry)
    (hnd : (l.map (fun x => x.1)).Nodup) (hmem : e ∈ l) :
    ImageCache.sizesSumL l = e.2.1 + ImageCache.sizesSumL (ImageCache.eraseKey e.1 l)
    ∧ l.length = (ImageCache.eraseKey e.1 l).length + 1 := by
  have hperm := cache_eraseKey_perm e l hnd hmem
  constructor
  · have := (hperm.map (fun x => x.2.1)).sum_eq
    simpa [ImageCache.sizesSumL] using this
  · simpa using hperm.length_eq

/-- Specification of the eviction loop: it preserves distinctness of the
keys, domination of the tracked total over the recorded sum, and the drift
between them; and it stops either with the total at or below the target
and the count at or below the cap, or with every entry evicted. -/
theorem cache_cleanup_go_spec (target : Int) :
    ∀ (l : List ImageCache.Entry) (s : ImageCache.CacheState),
      l.Perm s.entries → (s.entries.map (fun x => x.1)).Nodup →
      ImageCache.sizesSum s ≤ s.total_size →
      ((ImageCache.cleanup_go target l s).entries.map (fun x => x.1)).Nodup
      ∧ ImageCache.sizesSum (ImageCache.cleanup_go target l s) ≤
          (ImageCache.cleanup_go target l s).total_size
      ∧ (ImageCache.cleanup_go target l s).total_size -
          ImageCache.sizesSum (ImageCache.cleanup_go target l s) =
          s.total_size - ImageCache.sizesSum s
      ∧ ((ImageCache.cleanup_go target l s).total_size ≤ target
            ∧ (ImageCache.cleanup_go target l s).entries.length ≤
              ImageCache.MAX_CACHED_IMAGES
          ∨ (ImageCache.cleanup_go target l s).entries = []) := by
  intro l
  induction l with
  | nil =>
    intro s hperm hnd hsum
    refine ⟨hnd, hsum, rfl, Or.inr ?_⟩
    exact List.perm_nil.mp hperm.symm
  | cons e rest ih =>
    intro s hperm hnd hsum
    unfold ImageCache.cleanup_go
    by_cases hc : s.total_size > target ∨ s.entries.length > ImageCache.MAX_CACHED_IMAGES
    · rw [if_pos hc]
      have hmem : e ∈ s.entries := hperm.mem_iff.mp (List.mem_cons_self e rest)
      have hsz := cache_eraseKey_sum e s.entries hnd hmem
      have hperm2 := cache_eraseKey_perm e s.entries hnd hmem
      have hperm' : rest.Perm (ImageCache.eraseKey e.1 s.entries) :=
        (hperm.trans hperm2).cons_inv
      have hnd' : ((ImageCache.eraseKey e.1 s.entries).map (fun x => x.1)).Nodup := by
        rw [cache_eraseKey_keys]
        exact hnd.erase e.1
      have hsum' :
          ImageCache.sizesSum
              { entries := ImageCache.eraseKey e.1 s.entries
                total_size := s.total_size - (e.2.1 : Int) } ≤
            s.total_size - (e.2.1 : Int) := by
        have h1 := hsz.1
        simp only [ImageCache.sizesSum] at hsum ⊢
        omega
      have hres := ih
        { entries := ImageCache.eraseKey e.1 s.entries
          total_size := s.total_size - (e.2.1 : Int) }
        hperm' hnd' hsum'
      refine ⟨hres.1, hres.2.1, ?_, hres.2.2.2⟩
      rw [hres.2.2.1]
      have h1 := hsz.1
      simp only [ImageCache.sizesSum]
      omega
    · rw [if_neg hc]
      push_neg at hc
      exact ⟨hnd, hsum, rfl, Or.inl ⟨hc.1, hc.2⟩⟩

/-- Specification of `_cleanup_cache` with the default target. -/
theorem cache_cleanup_spec (s : ImageCache.CacheState)
    (hnd : (s.entries.map (fun x => x.1)).Nodup)
    (hsum : ImageCache.sizesSum s ≤ s.total_size) :
    ((ImageCache.cleanup_cache s none).entries.map (fun x => x.1)).Nodup
    ∧ ImageCache.sizesSum (ImageCache.cleanup_cache s none) ≤
        (ImageCache.cleanup_cache s none).total_size
    ∧ (ImageCache.cleanup_cache s none).total_size -
        ImageCache.sizesSum (ImageCache.cleanup_cache s none) =
        s.total_size - ImageCache.sizesSum s
    ∧ ((ImageCache.cleanup_cache s none).total_size ≤ ImageCache.CLEANUP_TARGET
          ∧ (ImageCache.cleanup_cache s none).entries.length ≤
            ImageCache.MAX_CACHED_IMAGES
        ∨ (ImageCache.cleanup_cache s none).entries = []) := by
  have h := cache_cleanup_go_spec ImageCache.CLEANUP_TARGET
    (ImageCache.sortByAccess s.entries) s (cache_sortByAccess_perm s.entries) hnd hsum
  exact h

/-- Keys after a dict write: unchanged on overwrite, appended on insert. -/
theorem cache_upsert_keys (k : String) (sz t : Nat) (l : List ImageCache.Entry) :
    (ImageCache.upsertEntry k sz t l).map (fun e => e.1) =
      if k ∈ l.map (fun e => e.1) then l.map (fun e => e.1)
      else l.map (fun e => e.1) ++ [k] := by
  induction l with
  | nil => simp [ImageCache.upsertEntry]
  | cons e rest ih =>
    unfold ImageCache.upsertEntry
    by_cases h : (e.1 == k) = true
    · have he : e.1 = k := eq_of_beq h
      simp [h, he]
    · have hne : ¬(k = e.1) := fun hh => h (by simp [hh])
      by_cases hm : k ∈ rest.map (fun e => e.1)
      · simp [h, hm, hne, ih]
      · simp [h, hm, hne, ih]

/-- A dict write keeps the keys distinct. -/
theorem cache_upsert_nodup (k : String) (sz t : Nat) (l : List ImageCache.Entry)
    (hnd : (l.map (fun e => e.1)).Nodup) :
    ((ImageCache.upsertEntry k sz t l).map (fun e => e.1)).Nodup := by
  rw [cache_upsert_keys]
  by_cases hm : k ∈ l.map (fun e => e.1)
  · simpa [hm] using hnd
  · simp only [hm, if_false]
    exact List.Nodup.append hnd (List.nodup_singleton k) (by simpa using hm)

/-- A dict write adds at most one entry. -/
theorem cache_upsert_length (k : String) (sz t : Nat) (l : List ImageCache.Entry) :
    (ImageCache.upsertEntry k sz t l).length ≤ l.length + 1 := by
  induction l with
  | nil => simp [ImageCache.upsertEntry]
  | cons e rest ih =>
    unfold ImageCache.upsertEntry
    by_cases h : (e.1 == k) = true
    · simp [h]
    · simp [h]
      omega

/-- A dict write increases the recorded-size sum by at most the new size
(an overwrite drops the old entry's recorded size). -/
theorem cache_upsert_sum (k : String) (sz t : Nat) (l : List ImageCache.Entry) :
    ImageCache.sizesSumL (ImageCache.upsertEntry k sz t l) ≤
      ImageCache.sizesSumL l + sz := by
  induction l with
  | nil => simp [ImageCache.upsertEntry, ImageCache.sizesSumL]
  | cons e rest ih =>
    unfold ImageCache.upsertEntry
    by_cases h : (e.1 == k) = true
    · simp [h, ImageCache.sizesSumL]
      omega
    · simp [h, ImageCache.sizesSumL]
      have h2 := ih
      simp [ImageCache.sizesSumL] at h2
      omega

/-- An upsert into the empty list is the one-entry list. -/
theorem cache_upsert_nil (k : String) (sz t : Nat) :
    ImageCache.upsertEntry k sz t [] = [(k, sz, t)] := rfl

/-- `cache_image` preserves the reachable-state invariant and, when the
payload respects the configured max image size, leaves the tracked total
at most `MAX_CACHE_SIZE + MAX_IMAGE_SIZE`. -/
theorem cache_cache_image_spec (s : ImageCache.CacheState) (u : String)
    (sz t : Nat) (hwf : ImageCache.WF s) (hsz : sz ≤ ImageCache.MAX_IMAGE_SIZE) :
    ImageCache.WF (ImageCache.cache_image s u sz t)
    ∧ (ImageCache.cache_image s u sz t).total_size ≤
        ImageCache.MAX_CACHE_SIZE + (ImageCache.MAX_IMAGE_SIZE : Int) := by
  obtain ⟨hnd, hsum, hD, hlen⟩ := hwf
  have hMAX : ImageCache.MAX_CACHE_SIZE = 104857600 := rfl
  have hTGT : ImageCache.CLEANUP_TARGET = 83886080 := rfl
  have hIMG : ImageCache.MAX_IMAGE_SIZE = 2097152 := rfl
  have hCAP : ImageCache.MAX_CACHED_IMAGES = 50 := rfl
  unfold ImageCache.cache_image
  by_cases hc : s.total_size + (sz : Int) > ImageCache.MAX_CACHE_SIZE
      ∨ s.entries.length ≥ ImageCache.MAX_CACHED_IMAGES
  · rw [if_pos hc]
    have hcl := cache_cleanup_spec s hnd hsum
    obtain ⟨hnd1, hsum1, hDeq, hdisj⟩ := hcl
    set s1 := ImageCache.cleanup_cache s none with hs1
    show ImageCache.WF
        { entries := ImageCache.upsertEntry u sz t s1.entries
          total_size := s1.total_size + (sz : Int) }
      ∧ s1.total_size + (sz : Int) ≤
          ImageCache.MAX_CACHE_SIZE + (ImageCache.MAX_IMAGE_SIZE : Int)
    have hub := cache_upsert_sum u sz t s1.entries
    have hul := cache_upsert_length u sz t s1.entries
    have hun := cache_upsert_nodup u sz t s1.entries hnd1
    cases hdisj with
    | inl hstop =>
      have h1 := hstop.1
      have h2 := hstop.2
      refine ⟨⟨hun, ?_, ?_, ?_⟩, ?_⟩
      · simp only [ImageCache.sizesSum] at hsum1 ⊢
        omega
      · have h0 : (0 : Int) ≤ (ImageCache.sizesSumL
            (ImageCache.upsertEntry u sz t s1.entries) : Int) := Int.natCast_nonneg _
        simp only [ImageCache.sizesSum] at hsum1 ⊢
        omega
      · show (ImageCache.upsertEntry u sz t s1.entries).length ≤
          ImageCache.MAX_CACHED_IMAGES + 1
        omega
      · omega
    | inr hempty =>
      rw [hempty, cache_upsert_nil]
      have hsum1' : ImageCache.sizesSum s1 = 0 := by
        simp [ImageCache.sizesSum, hempty, ImageCache.sizesSumL]
      have hsz1 : ImageCache.sizesSum
          { entries := [(u, sz, t)]
            total_size := s1.total_size + (sz : Int) } = (sz : Int) := by
        simp [ImageCache.sizesSum, ImageCache.sizesSumL]
      have hz : ImageCache.sizesSumL [(u, sz, t)] = sz := by
        simp [ImageCache.sizesSumL]
      refine ⟨⟨by simp, ?_, ?_, ?_⟩, ?_⟩
      · show (ImageCache.sizesSumL [(u, sz, t)] : Int) ≤ s1.total_size + (sz : Int)
        rw [hz]
        simp only [ImageCache.sizesSum] at hsum1 hsum1'
        omega
      · show s1.total_size + (sz : Int) - (ImageCache.sizesSumL [(u, sz, t)] : Int) ≤
          ImageCache.MAX_CACHE_SIZE
        rw [hz]
        simp only [ImageCache.sizesSum] at hsum1' hDeq hsum hD
        omega
      · show [(u, sz, t)].length ≤ ImageCache.MAX_CACHED_IMAGES + 1
        simp only [List.length_singleton]
        omega
      · show s1.total_size + (sz : Int) ≤
          ImageCache.MAX_CACHE_SIZE + (ImageCache.MAX_IMAGE_SIZE : Int)
        simp only [ImageCache.sizesSum] at hsum1' hDeq hsum hD
        omega
  · rw [if_neg hc]
    push_neg at hc
    show ImageCache.WF
        { entries := ImageCache.upsertEntry u sz t s.entries
          total_size := s.total_size + (sz : Int) }
      ∧ s.total_size + (sz : Int) ≤
          ImageCache.MAX_CACHE_SIZE + (ImageCache.MAX_IMAGE_SIZE : Int)
    have hub := cache_upsert_sum u sz t s.entries
    have hul := cache_upsert_length u sz t s.entries
    have hun := cache_upsert_nodup u sz t s.entries hnd
    refine ⟨⟨hun, ?_, ?_, ?_⟩, ?_⟩
    · simp only [ImageCache.sizesSum] at hsum ⊢
      omega
    · simp only [ImageCache.sizesSum] at hsum hD ⊢
      have h0 : (0 : Int) ≤ (ImageCache.sizesSumL
          (ImageCache.upsertEntry u sz t s.entries) : Int) := Int.natCast_nonneg _
      have h1 := hc.1
      omega
    · show (ImageCache.upsertEntry u sz t s.entries).length ≤
        ImageCache.MAX_CACHED_IMAGES + 1
      have h2 := hc.2
      omega
    · show s.total_size + (sz : Int) ≤
        ImageCache.MAX_CACHE_SIZE + (ImageCache.MAX_IMAGE_SIZE : Int)
      have h1 := hc.1
      omega

/-- Refreshing an access time touches neither keys, sizes, count nor the
tracked total, so the invariant is preserved. -/
theorem cache_access_WF (s : ImageCache.CacheState) (u : String) (t : Nat)
    (hwf : ImageCache.WF s) : ImageCache.WF (ImageCache.get_cached_path s u t) := by
  obtain ⟨hnd, hsum, hD, hlen⟩ := hwf
  have hkeys : ((ImageCache.get_cached_path s u t).entries.map (fun e => e.1)) =
      s.entries.map (fun e => e.1) := by
    show ((s.entries.map fun e => if e.1 == u then (e.1, e.2.1, t) else e).map
      (fun e => e.1)) = s.entries.map (fun e => e.1)
    rw [List.map_map]
    apply List.map_congr_left
    intro e _
    by_cases h : e.1 = u <;> simp [h]
  have hsizes : ImageCache.sizesSumL (ImageCache.get_cached_path s u t).entries =
      ImageCache.sizesSumL s.entries := by
    show ImageCache.sizesSumL
      (s.entries.map fun e => if e.1 == u then (e.1, e.2.1, t) else e) =
      ImageCache.sizesSumL s.entries
    simp only [ImageCache.sizesSumL, List.map_map]
    congr 1
    apply List.map_congr_left
    intro e _
    by_cases h : e.1 = u <;> simp [h]
  have hlen2 : (ImageCache.get_cached_path s u t).entries.length =
      s.entries.length := by
    show (s.entries.map fun e => if e.1 == u then (e.1, e.2.1, t) else e).length =
      s.entries.length
    simp
  refine ⟨?_, ?_, ?_, ?_⟩
  · rw [hkeys]; exact hnd
  · show ImageCache.sizesSum (ImageCache.get_cached_path s u t) ≤ s.total_size
    simp only [ImageCache.sizesSum, hsizes]
    exact hsum
  · show s.total_size - ImageCache.sizesSum (ImageCache.get_cached_path s u t) ≤
      ImageCache.MAX_CACHE_SIZE
    simp only [ImageCache.sizesSum, hsizes]
    exact hD
  · rw [hlen2]; exact hlen

/-- The fresh cache satisfies the invariant. -/
theorem cache_empty_WF : ImageCache.WF {} := by
  refine ⟨by simp, by decide, by decide, by decide⟩

/-- Every state reachable by well-formed operations satisfies the
invariant. -/
theorem cache_run_WF (ops : List ImageCache.CacheOp)
    (hops : ∀ op ∈ ops, ImageCache.opOk op) : ImageCache.WF (ImageCache.run ops) := by
  suffices h : ∀ (l : List ImageCache.CacheOp) (s : ImageCache.CacheState),
      ImageCache.WF s → (∀ op ∈ l, ImageCache.opOk op) →
      ImageCache.WF (l.foldl ImageCache.step s) by
    exact h ops {} cache_empty_WF hops
  intro l
  induction l with
  | nil => intro s hs _; exact hs
  | cons op rest ih =>
    intro s hs hl
    have hop : ImageCache.opOk op := hl op (List.mem_cons_self op rest)
    have hstep : ImageCache.WF (ImageCache.step s op) := by
      cases op with
      | cache u sz t => exact (cache_cache_image_spec s u sz t hs hop).1
      | access u t => exact cache_access_WF s u t hs
    exact ih (ImageCache.step s op) hstep (fun o ho => hl o (List.mem_cons_of_mem op ho))

/-- Claim C7, amended: from any state reachable by cache operations whose
payloads respect the configured max image size (and with every tracked
file present and deletable), a further `cache_image` leaves the tracked
total size at most MAX_CACHE_SIZE plus one max-size image
(104857600 + 2097152 bytes) and the tracked item count at most
MAX_CACHED_IMAGES + 1 = 51: the pre-insert cleanup restores
`total ≤ 80% of max` (or empties the cache, whose residual tracked drift
never exceeds the max) and `count ≤ 50`, and the insertion itself can then
add one entry and one payload beyond those bounds. -/
theorem cache_image_bounds_amended (ops : List ImageCache.CacheOp)
    (hops : ∀ op ∈ ops, ImageCache.opOk op) (u : String) (sz t : Nat)
    (hsz : sz ≤ ImageCache.MAX_IMAGE_SIZE) :
    (ImageCache.cache_image (ImageCache.run ops) u sz t).total_size ≤
      ImageCache.MAX_CACHE_SIZE + (ImageCache.MAX_IMAGE_SIZE : Int)
    ∧ (ImageCache.cache_image (ImageCache.run ops) u sz t).entries.length ≤
        ImageCache.MAX_CACHED_IMAGES + 1 := by
  have hwf := cache_run_WF ops hops
  have h := cache_cache_image_spec (ImageCache.run ops) u sz t hwf hsz
  exact ⟨h.2, h.1.2.2.2⟩

/-- Witness for the amended claim C7 at a concrete state and payload. -/
theorem cache_image_bounds_amended_witness :
    (ImageCache.cache_image
        (ImageCache.run [ImageCache.CacheOp.cache "a" 7 0]) "b" 5 1).total_size ≤
      ImageCache.MAX_CACHE_SIZE + (ImageCache.MAX_IMAGE_SIZE : Int)
    ∧ (ImageCache.cache_image
        (ImageCache.run [ImageCache.CacheOp.cache "a" 7 0]) "b" 5 1).entries.length ≤
        ImageCache.MAX_CACHED_IMAGES + 1 :=
  cache_image_bounds_amended [ImageCache.CacheOp.cache "a" 7 0]
    (by intro op hop; simp at hop; subst hop; show (7 : Nat) ≤ _; decide)
    "b" 5 1 (by decide)
